import Mathlib

/-!
Verification development for the `effective-mobile-test-app` repository.

The Python source is shallowly embedded: pure functions become Lean
functions, mutation of presenters becomes an explicit list of outcome
writes, database work becomes explicit list-of-rows state, and Python
exceptions become `Except` values.  Attribute lookups that can fail at
run time (the code is mid-refactor and references attributes that do not
exist) are modelled by explicit lookups returning `Option`, so that the
embedding reproduces the `AttributeError` behaviour of CPython.
-/

/-- Operation result states, from `app/application/ports/presenters.py`
(`class State(Enum)`).  The source enum has exactly these five members:
OK, ERROR, UNAUTHORIZED, FORBIDDEN, CONFLICT. -/
inductive State where
  | OK
  | ERROR
  | UNAUTHORIZED
  | FORBIDDEN
  | CONFLICT
deriving DecidableEq, Repr, Fintype

/-- Python exceptions that the embedded code can raise, by class.
`attributeError` models CPython's AttributeError for a missing attribute,
`compileError` models sqlalchemy's CompileError for an UPDATE that names a
column absent from the mapped table. -/
inductive PyExc where
  | attributeError (name : String)
  | typeError (msg : String)
  | valueError (msg : String)
  | valueObjectError (msg : String)
  | domainError (msg : String)
  | integrityUserError (msg : String)
  | concurrencyError (msg : String)
  | notAuthorizedError (msg : String)
  | assertionError (msg : String)
  | compileError (msg : String)
deriving DecidableEq, Repr

/-- One presenter write carries the state that was set and the value stored
in `presenter.response` (a DTO on `ok`, a message string otherwise). -/
def presenterOk {D : Type} (dto : D) : State × (D ⊕ String) :=
  (State.OK, Sum.inl dto)

/-- Models `Presenter.error`: sets `State.ERROR` and a message. -/
def presenterError {D : Type} (m : String) : State × (D ⊕ String) :=
  (State.ERROR, Sum.inr m)

/-- Models `Presenter.conflict`: sets `State.CONFLICT` and a message. -/
def presenterConflict {D : Type} (m : String) : State × (D ⊕ String) :=
  (State.CONFLICT, Sum.inr m)

/-- Models `Presenter.unauthorized`: sets `State.UNAUTHORIZED` and a message. -/
def presenterUnauthorized {D : Type} (m : String) : State × (D ⊕ String) :=
  (State.UNAUTHORIZED, Sum.inr m)

/-- Models `AuthPresenter.forbidden`: sets `State.FORBIDDEN` and a message. -/
def presenterForbidden {D : Type} (m : String) : State × (D ⊕ String) :=
  (State.FORBIDDEN, Sum.inr m)

/-- Result of one use-case invocation: the ordered list of presenter writes
performed, and the exception that escaped the call, if any. -/
structure UCResult (D : Type) where
  writes : List (State × (D ⊕ String))
  exc : Option PyExc
deriving DecidableEq, Repr

/-- All allowed user roles, from `app/domain/value_objects/user_role.py`
(`class UserRole(StrEnum)`); the misspelled member NANAGER is kept verbatim. -/
inductive UserRole where
  | ADMIN
  | NANAGER
  | USER
deriving DecidableEq, Repr

/-- String value of each `UserRole` member (the StrEnum values). -/
def roleToString : UserRole → String
  | .ADMIN => "admin"
  | .NANAGER => "manager"
  | .USER => "user"

/-- Models `UserRole(value)` construction: `some` on a known value, `none`
where CPython raises ValueError. -/
def roleOfString : String → Option UserRole
  | "admin" => some UserRole.ADMIN
  | "manager" => some UserRole.NANAGER
  | "user" => some UserRole.USER
  | _ => none

/-- Username length bounds check from `validate_username_length`
(USERNAME_MIN_LEN = 5, USERNAME_MAX_LEN = 20). -/
def validUsername (s : String) : Bool :=
  5 ≤ s.length && s.length ≤ 20

/-- Characters matched by Python's `\s` class for ASCII input. -/
def isPyWhitespace (c : Char) : Bool :=
  c = ' ' || c = '\t' || c = '\n' || c = '\r' || c = '\x0b' || c = '\x0c'

/-- Split a character list at every occurrence of a separator character,
with Python `str.split(sep)` semantics (empty pieces kept); structural
recursion so that it reduces inside the kernel. -/
def splitOnChar (sep : Char) : List Char → List (List Char)
  | [] => [[]]
  | c :: rest =>
    let r := splitOnChar sep rest
    if c = sep then [] :: r
    else
      match r with
      | [] => [[c]]
      | h :: t => (c :: h) :: t

/-- Models the regex `[^@\s]+@[^@\s]+\.[a-zA-Z0-9]+` anchored at both ends:
exactly one at-sign, a nonempty whitespace-free local part, and a domain
that consists of a nonempty whitespace-free prefix, a dot, and a nonempty
alphanumeric final run. -/
def emailRegexMatch (s : String) : Bool :=
  match splitOnChar '@' s.data with
  | [lpart, domain] =>
    0 < lpart.length && lpart.all (fun c => !isPyWhitespace c) &&
    domain.all (fun c => !isPyWhitespace c) &&
    (let parts := splitOnChar '.' domain
     2 ≤ parts.length &&
     parts.dropLast != [([] : List Char)] &&
     (let last := parts.getLastD []
      0 < last.length && last.all Char.isAlphanum))
  | _ => false

/-- Email validation from `validate_email_value`: length in [5, 100] and the
regex above. -/
def validEmailStr (s : String) : Bool :=
  5 ≤ s.length && s.length ≤ 100 && emailRegexMatch s

/-- Raw-password validation from `UserRawPassword.__post_init__`:
nonempty and length in [6, 20]. -/
def validRawPassword (s : String) : Bool :=
  s.length ≠ 0 && 6 ≤ s.length && s.length ≤ 20

/-- Password-hash validation from `UserPasswordHash.__post_init__`:
nonempty and exactly HASH_LEN = 60 bytes (bytes modelled as String). -/
def validHash (s : String) : Bool :=
  s.length = 60

/-- Hexadecimal digit, either case. -/
def isHexChar (c : Char) : Bool :=
  c.isDigit || ('a' ≤ c && c ≤ 'f') || ('A' ≤ c && c ≤ 'F')

/-- Canonical hyphenated UUID shape 8-4-4-4-12 of hex digits. -/
def isUUIDGroups (s : String) : Bool :=
  match splitOnChar '-' s.data with
  | [a, b, c, d, e] =>
    a.length = 8 && b.length = 4 && c.length = 4 && d.length = 4 &&
    e.length = 12 && (a ++ b ++ c ++ d ++ e).all isHexChar
  | _ => false

/-- Lowercasing restricted to the characters a canonical UUID can contain
(upper-case hex letters; everything else is already lower case or a digit
or hyphen). -/
def hexToLower (c : Char) : Char :=
  match c with
  | 'A' => 'a'
  | 'B' => 'b'
  | 'C' => 'c'
  | 'D' => 'd'
  | 'E' => 'e'
  | 'F' => 'f'
  | other => other

/-- Models `uuid.UUID(s)` for canonical hyphenated input: `some` of the
lowercased canonical form, `none` where CPython raises ValueError.  The
exotic accepted spellings (braces, urn prefix, bare hex) are not used
anywhere in this system and are not modelled. -/
def parseUUID (s : String) : Option String :=
  if isUUIDGroups s then some (String.mk (s.data.map hexToLower)) else none

/-- A row of the `users` table as the repository adapters presuppose it
(including an email column; whether the mapped class actually has that
column is tracked separately by `userORMColumns`). -/
structure UserRow where
  id : String
  username : String
  email : String
  password_hash : String
  role : String
  is_active : Bool
deriving DecidableEq, Repr

/-- A row of the `sessions` table, from
`app/infrastructure/db/sqlalchemy/models/user_session.py`. -/
structure SessionRow where
  id : String
  user_id : String
  expires_at : Int
  revoked_at : Option Int
deriving DecidableEq, Repr

/-- Database state visible to the adapters. -/
structure DB where
  sessions : List SessionRow
  users : List UserRow
deriving DecidableEq, Repr

/-- The columns actually mapped on `UserORM` in
`app/infrastructure/db/sqlalchemy/models/user.py`.  Note that `email` is
NOT among them, although the domain entity, the DTOs and every repository
adapter refer to a `UserORM.email` attribute. -/
def userORMColumns : List String :=
  ["id", "username", "password_hash", "role", "is_active",
   "created_at", "updated_at"]

/-- The rehydrated domain `User` entity
(`app/domain/entities/user/user.py`), with value objects flattened to
their underlying values. -/
structure DomainUser where
  id : String
  username : String
  email : String
  password_hash : String
  role : UserRole
  is_active : Bool
deriving DecidableEq, Repr

/-- Models `User.from_storage` applied to an ORM row, with keyword
arguments evaluated in source order: `UserId(row.id)` (no validation),
`Username(row.username)` (length check), `Email(row.email)` (the attribute
exists only if `email` is a mapped column, then format check),
`UserPasswordHash(row.password_hash)` (length check), `UserRole(row.role)`
(ValueError on unknown value), `row.is_active`. -/
def from_storage_row (cols : List String) (r : UserRow) :
    Except PyExc DomainUser :=
  if !validUsername r.username then
    .error (.valueObjectError "Username length")
  else if !(cols.contains "email") then
    .error (.attributeError "UserORM.email")
  else if !validEmailStr r.email then
    .error (.valueObjectError "Invalid email")
  else if !validHash r.password_hash then
    .error (.valueObjectError "Password hash length")
  else
    match roleOfString r.role with
    | none => .error (.valueError "role is not a valid UserRole")
    | some ro =>
      .ok { id := r.id, username := r.username, email := r.email,
            password_hash := r.password_hash, role := ro,
            is_active := r.is_active }

/-- Models `User.change_role` (`app/domain/entities/user/user.py`):
reject a no-op change, otherwise set the role, and when the new role is
ADMIN additionally force `is_active := true`. -/
def User.change_role (u : DomainUser) (new : UserRole) :
    Except PyExc DomainUser :=
  if new = u.role then
    .error (.domainError "Role is already set to the given value.")
  else
    let u1 := { u with role := new }
    if u1.role = UserRole.ADMIN then .ok { u1 with is_active := true }
    else .ok u1

/-- Models `Username(s)` construction followed by `User.change_username`. -/
def pyChangeUsername (u : DomainUser) (s : String) :
    Except PyExc DomainUser :=
  if !validUsername s then .error (.valueObjectError "Username length")
  else if s = u.username then
    .error (.domainError "New username is identical to current.")
  else .ok { u with username := s }

/-- Models `Email(s)` construction followed by `User.change_email`. -/
def pyChangeEmail (u : DomainUser) (s : String) : Except PyExc DomainUser :=
  if !validEmailStr s then .error (.valueObjectError "Invalid email")
  else if s = u.email then
    .error (.domainError "New email is identical to current.")
  else .ok { u with email := s }

/-- Models `UserRawPassword(s)` construction, `hasher.hash`, and
`User.change_password`. -/
def pyChangePassword (hasher : String → String) (u : DomainUser)
    (s : String) : Except PyExc DomainUser :=
  if !validRawPassword s then .error (.valueObjectError "Password length")
  else
    let h := hasher s
    if h = u.password_hash then
      .error (.domainError "New password hash matches the old one.")
    else .ok { u with password_hash := h }

/-- Decoded JWT payload restricted to the claims this system issues and
requires: `sub`, `sid`, `role` (strings) and `exp` (integer epoch
seconds). -/
structure JwtPayload where
  sub : Option String
  sid : Option String
  role : Option String
  exp : Option Int
deriving DecidableEq, Repr

/-- A wire token as seen by the verifying decoder: either structurally
malformed, or a payload together with whether its signature verifies
against the configured secret. -/
inductive JwtToken where
  | malformed
  | signed (payload : JwtPayload) (sigValid : Bool)
deriving DecidableEq, Repr

/-- Failure taxonomy of `JwtTokenService.decode`
(`app/infrastructure/security/jwt_service.py`): `JwtTokenExpired` vs
`JwtTokenInvalid`. -/
inductive JwtError where
  | expired
  | invalid
deriving DecidableEq, Repr

/-- Whether a claim name is present on the payload (`name in payload`). -/
def hasClaim (p : JwtPayload) : String → Bool
  | "sub" => p.sub.isSome
  | "sid" => p.sid.isSome
  | "role" => p.role.isSome
  | "exp" => p.exp.isSome
  | _ => false

/-- Models `JwtTokenService.decode` with `verify_exp` as configured.  The
order of checks follows PyJWT's `decode` with
`options = {verify_signature: True, verify_exp: ..., require: [...]}`:
structural decoding first (DecodeError for garbage), then signature
verification (InvalidSignatureError), then `_validate_required_claims`
(MissingRequiredClaimError), and only then `_validate_exp`
(ExpiredSignatureError when `exp <= now - leeway`).  The service maps
ExpiredSignatureError to `JwtTokenExpired` and every other
InvalidTokenError to `JwtTokenInvalid`; its trailing defensive
required-claims re-check is subsumed by the `require` option. -/
def JwtTokenService.decode (required : List String) (leeway now : Int)
    (verify_exp : Bool) (t : JwtToken) : Except JwtError JwtPayload :=
  match t with
  | .malformed => .error .invalid
  | .signed p sv =>
    if !sv then .error .invalid
    else if required.any (fun c => !hasClaim p c) then .error .invalid
    else
      match verify_exp, p.exp with
      | true, some e =>
        if e ≤ now - leeway then .error .expired else .ok p
      | _, _ => .ok p

/-- Models `UserRepositorySQL.get_by_id`
(`app/infrastructure/db/sqlalchemy/adapters.py`): a primary-key get (which
does not touch a nonexistent attribute) followed by `User.from_storage`
rehydration, which reads `result.email` and therefore raises
AttributeError when the `email` column is not mapped. -/
def UserRepositorySQL.get_by_id (cols : List String) (db : List UserRow)
    (uid : String) : Except PyExc (Option DomainUser) :=
  match db.find? (fun r => r.id == uid) with
  | none => .ok none
  | some r => (from_storage_row cols r).map some

/-- Models `UserRepositorySQL.save`: an
`UPDATE users SET email=..., username=..., role=..., is_active=...,
password_hash=... WHERE id=... RETURNING *`.  Compiling the statement
fails with CompileError when `email` is not a mapped column (the kwargs of
`.values()` are resolved against the table at execution time, inside the
`try` that catches only IntegrityError).  Otherwise: a unique-violation on
`uq_user_username` raises IntegrityError, mapped to IntegrityUserError;
then `len(rows) != 1` raises ConcurrencyError; on success the returned row
is rehydrated through `User.from_storage` WITHOUT passing `is_active`,
which therefore defaults to True. -/
def UserRepositorySQL.save (cols : List String) (db : List UserRow)
    (u : DomainUser) : List UserRow × Except PyExc DomainUser :=
  if !(cols.contains "email") then
    (db, .error (.compileError "Unconsumed column names: email"))
  else
    let affected := db.filter (fun r => r.id == u.id)
    let newRow : UserRow :=
      { id := u.id, username := u.username, email := u.email,
        password_hash := u.password_hash, role := roleToString u.role,
        is_active := u.is_active }
    if affected.length ≥ 1 &&
        db.any (fun r => r.id != u.id && r.username == u.username) then
      (db, .error (.integrityUserError
        "Integrity error occured when adding user"))
    else
      let db1 := db.map (fun r => if r.id == u.id then newRow else r)
      if affected.length ≠ 1 then
        (db1, .error (.concurrencyError "User was modified concurrently"))
      else
        (db1, from_storage_row cols { newRow with is_active := true })

/-- Models `SQLAuthenticateService.get_user_by_session_id`
(`app/interface/http/auth/adapters.py`).  The select list names
`UserORM.email`, so merely building the statement raises AttributeError
when the `email` column is not mapped — before any database access.  With
the column present, the query joins sessions to users, filtered ONLY by
session id, `revoked_at IS NULL` and `expires_at > now` — there is no
condition on `users.is_active` — and the single row is rehydrated via
`User.from_storage`. -/
def SQLAuthenticateService.get_user_by_session_id (cols : List String)
    (db : DB) (now : Int) (session_id : String) :
    Except PyExc (Option DomainUser) :=
  if !(cols.contains "email") then
    .error (.attributeError "UserORM.email")
  else
    match db.sessions.find? (fun s =>
        s.id == session_id && s.revoked_at.isNone &&
        decide (now < s.expires_at)) with
    | none => .ok none
    | some s =>
      match db.users.find? (fun u => u.id == s.user_id) with
      | none => .ok none
      | some u => (from_storage_row cols u).map some

/-- Models Python `str.strip()` for ASCII input: drop whitespace from both
ends. -/
def trimAscii (l : List Char) : List Char :=
  ((l.dropWhile isPyWhitespace).reverse.dropWhile isPyWhitespace).reverse

/-- Allow-listed path prefixes from `app/interface/http/main.py`. -/
def PUBLIC_PREFIXES : List String :=
  ["/docs", "/openapi.json", "/redoc", "/health", "/auth/login"]

/-- The parts of an inbound HTTP request that `auth_middleware` inspects:
method, path, the raw Authorization header (if present) and the
`session_id` cookie (if present). -/
structure PyRequest where
  method : String
  path : String
  authorization : Option String
  cookie_session_id : Option String
deriving DecidableEq, Repr

/-- Observable outcome of the middleware: a 401 JSON response, an
unhandled exception (surfacing as HTTP 500), or `call_next` with the
identity that was attached to `request.state.user` (`none` on the public
allow-list branch, where nothing is attached). -/
inductive AuthResult where
  | unauthenticated
  | internalError
  | next (user : Option DomainUser)
deriving DecidableEq, Repr

/-- Models `auth_middleware` (`app/interface/http/main.py`).  `env` maps a
token string to its decoded form (the abstraction of real JWT parsing and
HMAC verification); the service configuration is that of
`get_jwt_service`: required claims ("sub", "exp", "role", "sid"), leeway
0, `verify_exp=True`.  A sid that fails `uuid.UUID(...)` parsing raises an
uncaught ValueError (`internalError`), whereas `UserId.from_str(sub)` is
wrapped in `try/except Exception` and collapses to 401. -/
def auth_middleware (cols : List String) (env : String → JwtToken)
    (now : Int) (db : DB) (req : PyRequest) : AuthResult :=
  if req.method == "OPTIONS" ||
      PUBLIC_PREFIXES.any (fun p => p.data.isPrefixOf req.path.data) then
    .next none
  else
    let auth_hdr := req.authorization.getD ""
    if !("Bearer ".data.isPrefixOf auth_hdr.data) then .unauthenticated
    else
      let token := String.mk (trimAscii (auth_hdr.data.drop 7))
      match JwtTokenService.decode ["sub", "exp", "role", "sid"] 0 now true
          (env token) with
      | .error _ => .unauthenticated
      | .ok claims =>
        let sub := claims.sub.getD ""
        let sid := claims.sid.getD ""
        if sub == "" || sid == "" then .unauthenticated
        else
          match req.cookie_session_id with
          | none => .unauthenticated
          | some cookie_sid =>
            if cookie_sid == "" || cookie_sid != sid then .unauthenticated
            else
              match parseUUID sid with
              | none => .internalError
              | some sidU =>
                match SQLAuthenticateService.get_user_by_session_id cols
                    db now sidU with
                | .error _ => .internalError
                | .ok none => .unauthenticated
                | .ok (some user) =>
                  match parseUUID sub with
                  | none => .unauthenticated
                  | some subU =>
                    if subU != user.id then .unauthenticated
                    else .next (some user)

/-- Exception classes relevant to `UnitOfWork.__aexit__`; the tuple
membership test `exc_type not in (DomainError, ApplicationError)` compares
classes by identity, so subclasses such as ValueObjectError or
ConcurrencyError do NOT count as members. -/
inductive ExcClass where
  | domainError
  | applicationError
  | valueObjectError
  | integrityUserError
  | concurrencyError
  | notAuthorizedError
  | otherError
deriving DecidableEq, Repr

/-- Calls observable on a UnitOfWork during scope exit. -/
inductive UoWCall where
  | commit
  | rollback
  | close
  | logError
deriving DecidableEq, Repr

/-- Whether each finalizer itself throws when invoked. -/
structure UoWBehavior where
  commitThrows : Bool
  rollbackThrows : Bool
  closeThrows : Bool
deriving DecidableEq, Repr

/-- Models `UnitOfWork.__aexit__` (`app/application/ports/uow.py`): inside
a `try`, commit when the block raised nothing, otherwise log (for classes
other than exactly DomainError/ApplicationError) and roll back; the
`finally` then runs `_close()` on every path, including when commit or
rollback itself threw.  Returns the ordered call trace and whether an
exception escapes `__aexit__` itself. -/
def UnitOfWork.aexit (b : UoWBehavior) (exc_type : Option ExcClass) :
    List UoWCall × Bool :=
  let body : List UoWCall × Bool :=
    match exc_type with
    | none => ([UoWCall.commit], b.commitThrows)
    | some e =>
      let lg := if e = ExcClass.domainError ∨ e = ExcClass.applicationError
        then [] else [UoWCall.logError]
      (lg ++ [UoWCall.rollback], b.rollbackThrows)
  (body.1 ++ [UoWCall.close], body.2 || b.closeThrows)

/-- Models `RoleAuthService.ensure_role`
(`app/infrastructure/db/sqlalchemy/adapters.py`): return silently when the
role is a member of the required list, otherwise raise
NotAuthorizedError("Forbidden"). -/
def RoleAuthService.ensure_role (user_id : String) (user_role : UserRole)
    (required_roles : List UserRole) : Except PyExc Unit :=
  if user_role ∈ required_roles then .ok ()
  else .error (.notAuthorizedError "Forbidden")

/-- The static `ROLE_POLICIES` table from
`app/application/use_cases/base.py`, keyed by use-case class name. -/
def ROLE_POLICIES : List (String × List UserRole) :=
  [("CreateUserUseCase", [UserRole.ADMIN]),
   ("DeleteUserUseCase", [UserRole.ADMIN]),
   ("UpdateUserUseCase", [UserRole.ADMIN, UserRole.NANAGER]),
   ("ViewOrdersUseCase", [UserRole.ADMIN, UserRole.NANAGER, UserRole.USER]),
   ("ViewPaymentsUseCase", [UserRole.ADMIN, UserRole.NANAGER])]

/-- Models `AuthorizeUserUseCase.execute`: assert the policy entry exists,
call `ensure_role`; on NotAuthorizedError write FORBIDDEN and return,
otherwise delegate to `run`. -/
def AuthorizeUserUseCase.execute {D : Type} (useCaseName : String)
    (actor : DomainUser) (runF : Unit → UCResult D) : UCResult D :=
  match ROLE_POLICIES.lookup useCaseName with
  | none => { writes := [], exc := some (.assertionError
      "self.required_roles is not None") }
  | some required =>
    match RoleAuthService.ensure_role actor.id actor.role required with
    | .error (.notAuthorizedError _) =>
      { writes := [presenterForbidden "Forbidden"], exc := none }
    | .error e => { writes := [], exc := some e }
    | .ok _ => runF ()

/-- `AuthRequestDTO` from `app/application/dto/dto.py` lines 45-48: a
frozen slotted dataclass with fields `email` and `raw_password` only. -/
structure AuthRequestDTO where
  email : String
  raw_password : String
deriving DecidableEq, Repr

/-- Attribute lookup on an `AuthRequestDTO` instance; with
`slots=True, frozen=True` any other name raises AttributeError, which is
the `none` case.  In particular there is no `username` attribute. -/
def AuthRequestDTO.getattr (dto : AuthRequestDTO) : String → Option String
  | "email" => some dto.email
  | "raw_password" => some dto.raw_password
  | _ => none

/-- `AuthResponseDTO` from `app/application/dto/dto.py`: fields `user_id`,
`email`, `role` (no `username`). -/
structure AuthResponseDTO where
  user_id : String
  email : String
  role : String
deriving DecidableEq, Repr

/-- Models `AuthenticateUserUseCase.execute`
(`app/application/use_cases/authenticate_user.py`).  `get_by_username`
abstracts the repository lookup (the in-memory test double; the SQL
repository has no such method) and `verify` the password verifier.  The
body first evaluates `Username(dto.username)`: `dto.username` does not
exist on `AuthRequestDTO`, so every invocation raises AttributeError
before any presenter write.  The remaining branches embed the rest of the
source body: ValueObjectError on the username or raw password, a missing
user, and a failed verification each write
`unauthorized("Invalid credentials")`; the success branch would construct
`AuthResponseDTO(user_id=..., username=..., role=...)`, a TypeError since
the dataclass has no `username` parameter. -/
def AuthenticateUserUseCase.execute
    (get_by_username : String → Except PyExc (Option DomainUser))
    (verify : String → String → Bool) (dto : AuthRequestDTO) :
    UCResult AuthResponseDTO :=
  match dto.getattr "username" with
  | none => { writes := [], exc := some (.attributeError "username") }
  | some uname =>
    if !validUsername uname then
      { writes := [presenterUnauthorized "Invalid credentials"],
        exc := none }
    else
      match get_by_username uname with
      | .error e => { writes := [], exc := some e }
      | .ok none =>
        { writes := [presenterUnauthorized "Invalid credentials"],
          exc := none }
      | .ok (some user) =>
        if !validRawPassword dto.raw_password then
          { writes := [presenterUnauthorized "Invalid credentials"],
            exc := none }
        else if !(verify dto.raw_password user.password_hash) then
          { writes := [presenterUnauthorized "Invalid credentials"],
            exc := none }
        else
          { writes := [], exc := some (.typeError
              "AuthResponseDTO got an unexpected keyword argument username") }

/-- `UpdateUserInputDTO` from `app/application/dto/dto.py`: `id` plus four
optional fields. -/
structure UpdateUserInputDTO where
  id : String
  username : Option String
  email : Option String
  password : Option String
  role : Option String
deriving DecidableEq, Repr

/-- `UpdateUserOutputDTO` from `app/application/dto/dto.py`. -/
structure UpdateUserOutputDTO where
  id : String
  username : String
  email : String
  role : String
deriving DecidableEq, Repr

/-- The `fields_to_update` keys in dataclass field order (`id` skipped,
`None` values skipped), as built by `UpdateUserUseCase.run`. -/
def fieldsToUpdate (dto : UpdateUserInputDTO) : List String :=
  (if dto.username.isSome then ["username"] else []) ++
  (if dto.email.isSome then ["email"] else []) ++
  (if dto.password.isSome then ["password"] else []) ++
  (if dto.role.isSome then ["role"] else [])

/-- One iteration of the `match f` loop body in `UpdateUserUseCase.run`:
construct the value object from the DTO field and apply the corresponding
named mutation.  All errors produced here are DomainError,
ValueObjectError or ValueError — exactly the classes the inner `except`
catches. -/
def applyField (hasher : String → String) (dto : UpdateUserInputDTO)
    (u : DomainUser) : String → Except PyExc DomainUser
  | "username" => pyChangeUsername u (dto.username.getD "")
  | "email" => pyChangeEmail u (dto.email.getD "")
  | "password" => pyChangePassword hasher u (dto.password.getD "")
  | "role" =>
    match roleOfString (dto.role.getD "") with
    | none => .error (.valueError "is not a valid UserRole")
    | some r => User.change_role u r
  | _ => .error (.valueError "Not expected key in DTO.")

/-- Models `UpdateUserUseCase.run`
(`app/application/use_cases/update_user.py`).  When no field is set the
code calls `presenter.bad_response(...)`: no presenter class in the
repository defines `bad_response`, so this raises AttributeError.  When
the user is not found the code calls `presenter.not_found(...)`, likewise
undefined, another AttributeError.  A DomainError/ValueObjectError/
ValueError inside the field loop writes `error(...)` and returns; an
IntegrityUserError from `save` writes `conflict(...)`; any other exception
from `save` — including ConcurrencyError — is NOT caught and escapes. -/
def UpdateUserUseCase.run (cols : List String)
    (dbGet dbSave : List UserRow) (hasher : String → String)
    (dto : UpdateUserInputDTO) : UCResult UpdateUserOutputDTO :=
  let fs := fieldsToUpdate dto
  if fs.isEmpty then
    { writes := [], exc := some (.attributeError "bad_response") }
  else
    match parseUUID dto.id with
    | none =>
      { writes := [], exc := some (.valueError
          "badly formed hexadecimal UUID string") }
    | some uid =>
      match UserRepositorySQL.get_by_id cols dbGet uid with
      | .error e => { writes := [], exc := some e }
      | .ok none =>
        { writes := [], exc := some (.attributeError "not_found") }
      | .ok (some user) =>
        match fs.foldlM (applyField hasher dto) user with
        | .error _ =>
          { writes := [presenterError
              "Can`t update user with given atributes."], exc := none }
        | .ok user1 =>
          match (UserRepositorySQL.save cols dbSave user1).2 with
          | .error (.integrityUserError _) =>
            { writes := [presenterConflict
                "User with given unique atributes already exists"],
              exc := none }
          | .error e => { writes := [], exc := some e }
          | .ok updated =>
            { writes := [presenterOk
                { id := updated.id, username := updated.username,
                  email := updated.email,
                  role := roleToString updated.role }], exc := none }

/-- `UpdateUserUseCase.execute` is the inherited
`AuthorizeUserUseCase.execute` with the class-name policy key
"UpdateUserUseCase". -/
def UpdateUserUseCase.execute (cols : List String)
    (dbGet dbSave : List UserRow) (hasher : String → String)
    (actor : DomainUser) (dto : UpdateUserInputDTO) :
    UCResult UpdateUserOutputDTO :=
  AuthorizeUserUseCase.execute "UpdateUserUseCase" actor
    (fun _ => UpdateUserUseCase.run cols dbGet dbSave hasher dto)

/-- A 60-character stand-in for a bcrypt hash (HASH_LEN = 60). -/
def hash60 : String :=
  "xyxyxyxyxyxyxyxyxyxyxyxyxyxyxyxyxyxyxyxyxyxyxyxyxyxyxyxyxyxy"

/-- Concrete user id used by the middleware scenario. -/
def uidC1 : String := "11111111-1111-1111-1111-111111111111"

/-- Concrete session id used by the middleware scenario. -/
def sidC1 : String := "22222222-2222-2222-2222-222222222222"

/-- A stored user whose fields are all valid but whose `is_active` flag is
false. -/
def userRowC1 : UserRow :=
  { id := uidC1, username := "validuser", email := "user@example.com",
    password_hash := hash60, role := "user", is_active := false }

/-- A live session for that user: not revoked, expires in the future. -/
def sessionRowC1 : SessionRow :=
  { id := sidC1, user_id := uidC1, expires_at := 100, revoked_at := none }

/-- Database holding exactly that session and user. -/
def dbC1 : DB := { sessions := [sessionRowC1], users := [userRowC1] }

/-- Claims of a correctly signed, unexpired token for that session. -/
def payloadC1 : JwtPayload :=
  { sub := some uidC1, sid := some sidC1, role := some "user",
    exp := some 50 }

/-- Token environment in which every presented token string verifies to
`payloadC1` with a valid signature. -/
def envC1 : String → JwtToken := fun _ => JwtToken.signed payloadC1 true

/-- A GET on a protected route carrying the bearer token and the matching
session cookie. -/
def reqC1 : PyRequest :=
  { method := "GET", path := "/users", authorization := some "Bearer tok",
    cookie_session_id := some sidC1 }

/-- The domain user that rehydration of `userRowC1` produces. -/
def duC1 : DomainUser :=
  { id := uidC1, username := "validuser", email := "user@example.com",
    password_hash := hash60, role := UserRole.USER, is_active := false }

/-- The ORM column list as the rest of the code presupposes it, that is
with the `email` column present. -/
def userORMColumnsWithEmail : List String := userORMColumns ++ ["email"]

/-- An authenticated administrator actor. -/
def actorAdmin : DomainUser :=
  { id := "44444444-4444-4444-4444-444444444444", username := "adminuser",
    email := "admin@example.com", password_hash := hash60,
    role := UserRole.ADMIN, is_active := true }

/-- Concrete user id for the save/update scenarios. -/
def uidC4 : String := "55555555-5555-5555-5555-555555555555"

/-- The stored row read by `get_by_id` in the update scenario. -/
def userRowC4 : UserRow :=
  { id := uidC4, username := "validuser4", email := "user4@example.com",
    password_hash := hash60, role := "user", is_active := true }

/-- The same user as a domain entity, as passed to `save`. -/
def duC4 : DomainUser :=
  { id := uidC4, username := "validuser4", email := "user4@example.com",
    password_hash := hash60, role := UserRole.USER, is_active := true }

/-- Update request changing only the username. -/
def dtoC4 : UpdateUserInputDTO :=
  { id := uidC4, username := some "newname99", email := none,
    password := none, role := none }

/-- Update request with every optional field absent. -/
def dtoC5 : UpdateUserInputDTO :=
  { id := "33333333-3333-3333-3333-333333333333", username := none,
    email := none, password := none, role := none }

/-- Update request for a user id that is not in the database. -/
def dtoC5b : UpdateUserInputDTO :=
  { id := "33333333-3333-3333-3333-333333333333",
    username := some "newname99", email := none, password := none,
    role := none }

/-- C3: for every UnitOfWork scope exit, whatever exception class (if any)
left the protected block and whether or not commit/rollback/close
themselves throw, the call trace of `__aexit__` contains `close` exactly
once, contains `commit` exactly once when the block raised nothing and
never otherwise, and contains `rollback` exactly once when the block
raised and never otherwise.  The `try/finally` guarantees `close` runs
even when commit or rollback throws. -/
theorem C3_uow_scope_exit : ∀ (b : UoWBehavior) (exc : Option ExcClass),
    ((UnitOfWork.aexit b exc).1.count UoWCall.close = 1) ∧
    ((UnitOfWork.aexit b exc).1.count UoWCall.commit
      = if exc = none then 1 else 0) ∧
    ((UnitOfWork.aexit b exc).1.count UoWCall.rollback
      = if exc = none then 0 else 1) := by
  intro b exc
  cases exc with
  | none => exact ⟨rfl, rfl, rfl⟩
  | some e => cases e <;> exact ⟨rfl, rfl, rfl⟩

/-- C9: `ensure_role` returns silently exactly when the actor role is a
member of the required list and raises NotAuthorizedError("Forbidden")
exactly otherwise; membership is exact, so ADMIN (like any role) is
authorized only when it is explicitly listed. -/
theorem C9_ensure_role : ∀ (uid : String) (role : UserRole)
    (required : List UserRole),
    (RoleAuthService.ensure_role uid role required = .ok ()
      ↔ role ∈ required) ∧
    (RoleAuthService.ensure_role uid role required
        = .error (.notAuthorizedError "Forbidden") ↔ role ∉ required) := by
  intro uid role required
  unfold RoleAuthService.ensure_role
  by_cases h : role ∈ required <;> simp [h]

/-- C10: `change_role` on a user whose current role is not ADMIN, when
given ADMIN, sets the role to ADMIN and forces `is_active := true` (even
for an inactive user); for any other new role distinct from the current
one it changes only the role field, leaving `is_active` and all other
fields unchanged. -/
theorem C10_change_role : ∀ (u : DomainUser),
    (u.role ≠ UserRole.ADMIN →
      User.change_role u UserRole.ADMIN
        = .ok { u with role := UserRole.ADMIN, is_active := true }) ∧
    (∀ new, new ≠ u.role → new ≠ UserRole.ADMIN →
      User.change_role u new = .ok { u with role := new }) := by
  intro u
  constructor
  · intro h
    unfold User.change_role
    rw [if_neg (fun hc => h hc.symm)]
    simp
  · intro new h1 h2
    unfold User.change_role
    rw [if_neg h1]
    simp [h2]

/-- Demonstration user for the `change_role` witness: an inactive plain
user. -/
def demoUser : DomainUser :=
  { id := "66666666-6666-6666-6666-666666666666", username := "demouser66",
    email := "demo@example.com", password_hash := hash60,
    role := UserRole.USER, is_active := false }

/-- Witness for C10 at a concrete inactive USER: promotion to ADMIN also
activates; changing to NANAGER changes only the role. -/
theorem C10_change_role_witness :
    User.change_role demoUser UserRole.ADMIN
      = .ok { demoUser with role := UserRole.ADMIN, is_active := true } ∧
    User.change_role demoUser UserRole.NANAGER
      = .ok { demoUser with role := UserRole.NANAGER } :=
  ⟨(C10_change_role demoUser).1 (by decide),
   (C10_change_role demoUser).2 UserRole.NANAGER (by decide) (by decide)⟩

/-- C6 counterexample: the claim asserts the state holder exposes exactly
six result states (OK, VALIDATION_ERROR, UNAUTHENTICATED, FORBIDDEN,
CONFLICT, NOT_FOUND); the `State` enum in the source has five members —
there is no NOT_FOUND state at all, and the error and unauthenticated
states are named ERROR and UNAUTHORIZED. -/
theorem C6_counterexample : Fintype.card State ≠ 6 := by decide

/-- C6 amended: the state holder exposes exactly the five result states
OK, ERROR, UNAUTHORIZED, FORBIDDEN and CONFLICT, and every outcome a
presenter method writes is one of these five. -/
theorem C6_amended_states :
    Fintype.card State = 5 ∧
    (∀ s : State, s = State.OK ∨ s = State.ERROR ∨ s = State.UNAUTHORIZED
      ∨ s = State.FORBIDDEN ∨ s = State.CONFLICT) ∧
    (∀ (D : Type) (dto : D) (m : String),
      (presenterOk dto).1 = State.OK ∧
      (@presenterError D m).1 = State.ERROR ∧
      (@presenterConflict D m).1 = State.CONFLICT ∧
      (@presenterUnauthorized D m).1 = State.UNAUTHORIZED ∧
      (@presenterForbidden D m).1 = State.FORBIDDEN) := by
  refine ⟨by decide, ?_, ?_⟩
  · intro s; cases s <;> simp
  · intro D dto m; exact ⟨rfl, rfl, rfl, rfl, rfl⟩

/-- Token with a valid signature, a long-expired `exp` claim, and no `sub`
claim. -/
def tokC8 : JwtToken :=
  JwtToken.signed
    { sub := none, sid := none, role := none, exp := some 10 } true

/-- C8 counterexample: the claim says decode raises TokenExpired exactly
when the signature is valid and the expiry has passed.  For `tokC8` at
`now = 1000` (signature valid, expiry long past, required claim `sub`
missing) decode raises TokenInvalid instead, because PyJWT validates the
`require` list before the expiry. -/
theorem C8_counterexample :
    JwtTokenService.decode ["sub", "exp"] 0 1000 true tokC8
      = .error JwtError.invalid ∧
    (10 : Int) ≤ 1000 - 0 :=
  ⟨rfl, by decide⟩

/-- With the column set actually mapped on `UserORM`, building the session
join query raises AttributeError before any database access, for every
database state, clock and session id. -/
lemma get_user_real_cols (db : DB) (now : Int) (sid : String) :
    SQLAuthenticateService.get_user_by_session_id userORMColumns db now sid
      = .error (.attributeError "UserORM.email") := rfl

/-- C1 (code bug): the gateway claim fails on the code.  Conjuncts:
(1) for a request carrying a correctly signed unexpired token with `sub`
and `sid`, a matching cookie, and a live session joined to its user, the
middleware produces an internal error — building the session/user query
raises AttributeError because `UserORM` maps no `email` column;
(2) universally, with the real column set no request whatsoever gets an
identity attached, so the claimed "if" direction fails wherever the
conditions hold; (3)-(4) moreover, were the email column restored, the
very same request resolves a user whose `is_active` flag is false and
attaches that identity anyway — the query filters only on session id,
`revoked_at` and `expires_at`, never on `users.is_active` — contradicting
the claim's only-if direction as well. -/
theorem C1_auth_gateway_code_bug :
    auth_middleware userORMColumns envC1 0 dbC1 reqC1
      = AuthResult.internalError
    ∧ (∀ env now db req u,
        auth_middleware userORMColumns env now db req
          ≠ AuthResult.next (some u))
    ∧ auth_middleware userORMColumnsWithEmail envC1 0 dbC1 reqC1
        = AuthResult.next (some duC1)
    ∧ duC1.is_active = false := by
  refine ⟨rfl, ?_, rfl, rfl⟩
  intro env now db req u h
  simp only [auth_middleware, get_user_real_cols] at h
  repeat' split at h
  all_goals simp_all

/-- C2 (code bug): a login with a correct identifier and secret never
produces Outcome.OK.  For every repository lookup and every password
verifier — in particular ones under which the supplied credentials are
correct — `AuthenticateUserUseCase.execute` raises AttributeError on its
first step (`dto.username` does not exist on `AuthRequestDTO`), writes no
outcome, and therefore the login route never issues a token and never
creates a session row. -/
theorem C2_login_success_code_bug :
    ∀ (g : String → Except PyExc (Option DomainUser))
      (v : String → String → Bool),
    AuthenticateUserUseCase.execute g v
      { email := "user@example.com", raw_password := "correct-pass1" }
      = { writes := [], exc := some (.attributeError "username") } :=
  fun _ _ => rfl

/-- C7 (code bug): a failing login does not produce the UNAUTHENTICATED
outcome with message "Invalid credentials".  On a wrong-secret request
(first conjunct) — and indeed on every request (second conjunct) —
`AuthenticateUserUseCase.execute` raises AttributeError on `dto.username`
before reaching any of the failure branches, so no outcome at all is
written and the constant-message behaviour asserted by the claim (and by
the repository's own unit tests) never occurs. -/
theorem C7_login_failure_code_bug :
    (∀ (g : String → Except PyExc (Option DomainUser))
       (v : String → String → Bool),
      AuthenticateUserUseCase.execute g v
        { email := "user@example.com", raw_password := "wrong-pass12" }
        = { writes := [], exc := some (.attributeError "username") })
    ∧ (∀ g v dto, AuthenticateUserUseCase.execute g v dto
        = { writes := [], exc := some (.attributeError "username") }) :=
  ⟨fun _ _ => rfl, fun _ _ _ => rfl⟩

/-- C4 (code bug): the zero-rows-to-CONFLICT pipeline is broken at both
ends.  (1) With the real column set, executing the UPDATE raises
CompileError (`email` is not a mapped column) inside a `try` that catches
only IntegrityError, so `save` cannot even reach its row-count check;
(2) the enclosing update operation likewise dies earlier, on rehydration;
(3) granting the intended schema, `save` against a database whose row was
concurrently removed does raise ConcurrencyError as the claim's first half
says; but (4) `UpdateUserUseCase.run` catches only IntegrityUserError, so
the ConcurrencyError escapes the operation with no outcome written — the
CONFLICT outcome asserted by the claim is never produced. -/
theorem C4_save_concurrency_code_bug :
    (UserRepositorySQL.save userORMColumns [userRowC4] duC4).2
      = .error (.compileError "Unconsumed column names: email")
    ∧ (∀ h, UpdateUserUseCase.execute userORMColumns [userRowC4] [] h
        actorAdmin dtoC4
        = { writes := [], exc := some (.attributeError "UserORM.email") })
    ∧ (UserRepositorySQL.save userORMColumnsWithEmail [] duC4).2
        = .error (.concurrencyError "User was modified concurrently")
    ∧ (∀ h, UpdateUserUseCase.execute userORMColumnsWithEmail [userRowC4]
        [] h actorAdmin dtoC4
        = { writes := [],
            exc := some (.concurrencyError
              "User was modified concurrently") }) :=
  ⟨rfl, fun _ => rfl, rfl, fun _ => rfl⟩

/-- C5 (code bug): an authorized invocation of
`UpdateUserUseCase.execute` can write zero outcomes.  (1) For every
database and hasher, an update DTO with no fields set makes the code call
`presenter.bad_response(...)` — a method no presenter class defines — so
AttributeError escapes with no outcome written; (2) likewise, an update
for an id absent from the database calls the undefined
`presenter.not_found(...)`: again zero outcomes and an escaping
exception, violating the exactly-one-outcome contract. -/
theorem C5_single_outcome_code_bug :
    (∀ cols dbGet dbSave h,
      UpdateUserUseCase.execute cols dbGet dbSave h actorAdmin dtoC5
        = { writes := [], exc := some (.attributeError "bad_response") })
    ∧ (∀ h, UpdateUserUseCase.execute userORMColumnsWithEmail [] [] h
        actorAdmin dtoC5b
        = { writes := [], exc := some (.attributeError "not_found") }) :=
  ⟨fun _ _ _ _ => rfl, fun _ => rfl⟩

/-- C8 amended: with expiry verification enabled, decode raises
TokenExpired exactly when the token is well-formed, its signature is
valid, every required claim is present, and the exp claim has passed
(exp ≤ now − leeway); it raises TokenInvalid when the structure is
malformed, the signature is bad, or a required claim is missing — the
required-claims check preceding the expiry check; and otherwise it
returns the decoded claims. -/
theorem C8_amended_decode : ∀ (required : List String) (leeway now : Int)
    (t : JwtToken),
    (JwtTokenService.decode required leeway now true t
        = .error JwtError.expired ↔
      ∃ p, t = JwtToken.signed p true ∧
        (∀ c ∈ required, hasClaim p c = true) ∧
        ∃ e, p.exp = some e ∧ e ≤ now - leeway) ∧
    (JwtTokenService.decode required leeway now true t
        = .error JwtError.invalid ↔
      (t = JwtToken.malformed ∨ ∃ p sv, t = JwtToken.signed p sv ∧
        (sv = false ∨ ∃ c ∈ required, hasClaim p c = false))) ∧
    (∀ q, JwtTokenService.decode required leeway now true t = .ok q ↔
      (t = JwtToken.signed q true ∧
        (∀ c ∈ required, hasClaim q c = true) ∧
        ∀ e, q.exp = some e → now - leeway < e)) := by
  intro required leeway now t
  cases t with
  | malformed => refine ⟨?_, ?_, ?_⟩ <;> simp [JwtTokenService.decode]
  | signed p sv =>
    cases sv with
    | false => refine ⟨?_, ?_, ?_⟩ <;> simp [JwtTokenService.decode]
    | true =>
      by_cases hreq : required.any (fun c => !hasClaim p c)
      · obtain ⟨c0, hc0, hfc0⟩ : ∃ c ∈ required, hasClaim p c = false := by
          simpa using hreq
        have hd : JwtTokenService.decode required leeway now true
            (JwtToken.signed p true) = .error JwtError.invalid := by
          simp [JwtTokenService.decode, hreq]
        refine ⟨?_, ?_, ?_⟩
        · rw [hd]
          constructor
          · intro h; simp at h
          · rintro ⟨p2, hp2, hall2, -⟩
            rw [JwtToken.signed.injEq] at hp2
            obtain ⟨rfl, -⟩ := hp2
            simp [hall2 c0 hc0] at hfc0
        · rw [hd]
          constructor
          · intro _
            exact Or.inr ⟨p, true, rfl, Or.inr ⟨c0, hc0, hfc0⟩⟩
          · intro _; rfl
        · intro q
          rw [hd]
          constructor
          · intro h; simp at h
          · rintro ⟨hp2, hall2, -⟩
            rw [JwtToken.signed.injEq] at hp2
            obtain ⟨rfl, -⟩ := hp2
            simp [hall2 c0 hc0] at hfc0
      · have hall : ∀ c ∈ required, hasClaim p c = true := by
          intro c hc
          by_contra hfc
          exact hreq (List.any_eq_true.mpr ⟨c, hc, by simp [hfc]⟩)
        cases hexp : p.exp with
        | none =>
          have hd : JwtTokenService.decode required leeway now true
              (JwtToken.signed p true) = .ok p := by
            simp [JwtTokenService.decode, hreq, hexp]
          refine ⟨?_, ?_, ?_⟩
          · rw [hd]
            constructor
            · intro h; simp at h
            · rintro ⟨p2, hp2, -, e, he2, -⟩
              rw [JwtToken.signed.injEq] at hp2
              obtain ⟨rfl, -⟩ := hp2
              rw [hexp] at he2
              exact Option.noConfusion he2
          · rw [hd]
            constructor
            · intro h; simp at h
            · rintro (h | ⟨p2, sv2, hp2, h2⟩)
              · exact JwtToken.noConfusion h
              · rw [JwtToken.signed.injEq] at hp2
                obtain ⟨rfl, hsv⟩ := hp2
                subst hsv
                rcases h2 with h2 | ⟨c2, hc2, hfc2⟩
                · exact Bool.noConfusion h2
                · simp [hall c2 hc2] at hfc2
          · intro q
            rw [hd]
            constructor
            · intro h
              obtain rfl := Except.ok.inj h
              refine ⟨rfl, hall, ?_⟩
              intro e he2
              rw [hexp] at he2
              exact Option.noConfusion he2
            · rintro ⟨hp2, -, -⟩
              rw [JwtToken.signed.injEq] at hp2
              obtain ⟨rfl, -⟩ := hp2
              rfl
        | some e =>
          by_cases he : e ≤ now - leeway
          · have hd : JwtTokenService.decode required leeway now true
                (JwtToken.signed p true) = .error JwtError.expired := by
              simp [JwtTokenService.decode, hreq, hexp, he]
            refine ⟨?_, ?_, ?_⟩
            · rw [hd]
              constructor
              · intro _
                exact ⟨p, rfl, hall, e, hexp, he⟩
              · intro _; rfl
            · rw [hd]
              constructor
              · intro h; simp at h
              · rintro (h | ⟨p2, sv2, hp2, h2⟩)
                · exact JwtToken.noConfusion h
                · rw [JwtToken.signed.injEq] at hp2
                  obtain ⟨rfl, hsv⟩ := hp2
                  subst hsv
                  rcases h2 with h2 | ⟨c2, hc2, hfc2⟩
                  · exact Bool.noConfusion h2
                  · simp [hall c2 hc2] at hfc2
            · intro q
              rw [hd]
              constructor
              · intro h; simp at h
              · rintro ⟨hp2, -, hlt⟩
                rw [JwtToken.signed.injEq] at hp2
                obtain ⟨rfl, -⟩ := hp2
                exact absurd (hlt e hexp) (by omega)
          · have hd : JwtTokenService.decode required leeway now true
                (JwtToken.signed p true) = .ok p := by
              simp [JwtTokenService.decode, hreq, hexp, he]
            refine ⟨?_, ?_, ?_⟩
            · rw [hd]
              constructor
              · intro h; simp at h
              · rintro ⟨p2, hp2, -, e2, he2, hle2⟩
                rw [JwtToken.signed.injEq] at hp2
                obtain ⟨rfl, -⟩ := hp2
                rw [hexp] at he2
                obtain rfl := Option.some.inj he2
                omega
            · rw [hd]
              constructor
              · intro h; simp at h
              · rintro (h | ⟨p2, sv2, hp2, h2⟩)
                · exact JwtToken.noConfusion h
                · rw [JwtToken.signed.injEq] at hp2
                  obtain ⟨rfl, hsv⟩ := hp2
                  subst hsv
                  rcases h2 with h2 | ⟨c2, hc2, hfc2⟩
                  · exact Bool.noConfusion h2
                  · simp [hall c2 hc2] at hfc2
            · intro q
              rw [hd]
              constructor
              · intro h
                obtain rfl := Except.ok.inj h
                refine ⟨rfl, hall, ?_⟩
                intro e2 he2
                rw [hexp] at he2
                obtain rfl := Option.some.inj he2
                omega
              · rintro ⟨hp2, -, -⟩
                rw [JwtToken.signed.injEq] at hp2
                obtain ⟨rfl, -⟩ := hp2
                rfl
